import Mathlib

/-
Formal model of the MetaToolMaster orchestration core (src/src/controllers.py).

The Python code is shallowly embedded: dictionaries become association lists
over String keys (insertion order preserved, updates in place, as in Python),
LLM calls become explicit environments supplying the oracle answers, and
statements that can raise become Except-valued functions.  The embedding
covers populate_registries, GeneralController.decompose_query,
GeneralController.execute_with_feedback, the per-subtask routing body of
GeneralController.process_query, GeneralController.register_plugin,
GeneralController.reassign_task and GeneralController.store_persistent_data.
Prompt texts, the task status board bookkeeping and response aggregation are
outside the scope of the theorems below and are not modelled.
-/

/-! ## Python string primitives, modelled at the character level -/

/-- Model of the check whether the second list begins with the first. -/
def beginsWithList : List Char → List Char → Bool
  | [], _ => true
  | _ :: _, [] => false
  | a :: as, b :: bs => (a == b) && beginsWithList as bs

/-- Model of the Python substring test `needle in hay` on character lists. -/
def hasSubList (needle : List Char) : List Char → Bool
  | [] => beginsWithList needle []
  | h :: hs => beginsWithList needle (h :: hs) || hasSubList needle hs

/-- Model of the Python substring test `needle in hay` on strings. -/
def containsSubstr (needle hay : String) : Bool :=
  hasSubList needle.data hay.data

/-- ASCII lower-casing of one character, as Python str.lower does on ASCII. -/
def lowerChar (c : Char) : Char :=
  if 'A' ≤ c && c ≤ 'Z' then Char.ofNat (c.toNat + 32) else c

/-- Model of Python str.lower (the source only lower-cases ASCII oracle text). -/
def pyLower (s : String) : String :=
  String.mk (s.data.map lowerChar)

/-- Whitespace characters stripped by Python str.strip and int parsing. -/
def isSpaceChar (c : Char) : Bool :=
  c = ' ' || c = '\t' || c = '\n' || c = '\r' || c = '\x0b' || c = '\x0c'

/-- Model of Python str.strip on character lists. -/
def trimChars (p : List Char) : List Char :=
  ((p.dropWhile isSpaceChar).reverse.dropWhile isSpaceChar).reverse

/-- If the separator is a front segment of the list, return the remainder. -/
def sepRest : List Char → List Char → Option (List Char)
  | [], hay => some hay
  | _ :: _, [] => none
  | a :: as, h :: hs => if a == h then sepRest as hs else none

/-- Fuel-indexed splitting of a character list on a separator, leftmost
non-overlapping occurrences first, exactly as Python str.split does.  The
fuel is an upper bound on the number of characters still to scan. -/
def splitCharsAux (sep : List Char) : Nat → List Char → List (List Char)
  | _, [] => [[]]
  | 0, hay => [hay]
  | fuel + 1, h :: hs =>
    match sepRest sep (h :: hs) with
    | some rest => [] :: splitCharsAux sep fuel rest
    | none =>
      match splitCharsAux sep fuel hs with
      | [] => [[h]]
      | x :: xs => (h :: x) :: xs

/-- Splitting of a character list on every occurrence of a separator. -/
def splitChars (sep hay : List Char) : List (List Char) :=
  splitCharsAux sep hay.length hay

/-- Model of the Python call `line.split(": ", 2)` from
GeneralController.decompose_query: split on the first two occurrences of
the separator and keep the remainder intact as the third field. -/
def pySplit2 (s : String) : List String :=
  match splitChars [':', ' '] s.data with
  | [] => []
  | [a] => [String.mk a]
  | [a, b] => [String.mk a, String.mk b]
  | a :: b :: rest => [String.mk a, String.mk b, String.mk (List.intercalate [':', ' '] rest)]

/-- Drop one trailing carriage return, so that a CRLF boundary is treated
like a plain newline, as Python str.splitlines does. -/
def stripCR (p : List Char) : List Char :=
  if p.getLast? = some '\r' then p.dropLast else p

/-- Model of Python str.splitlines for LF and CRLF boundaries: split on
newline characters and drop the trailing empty piece.  The exotic Python
line boundaries (lone CR, vertical tab, form feed, Unicode separators) are
not modelled; no oracle response in the theorems below uses them. -/
def pySplitLines (s : String) : List String :=
  let parts := (splitChars ['\n'] s.data).map stripCR
  let parts := if parts.getLast? = some [] then parts.dropLast else parts
  parts.map String.mk

/-- Decimal digit accumulation; none as soon as a non-digit appears. -/
def digitsValAux : List Char → Nat → Option Nat
  | [], acc => some acc
  | c :: cs, acc =>
    if c.isDigit then digitsValAux cs (acc * 10 + (c.toNat - 48)) else none

/-- Model of Python int(s) on the strings the source parses: optional
surrounding whitespace, an optional sign, then decimal digits.  Underscore
digit grouping and non-ASCII digits are not modelled. -/
def pyInt (s : String) : Option Int :=
  match trimChars s.data with
  | [] => none
  | '+' :: ds => if ds = [] then none else (digitsValAux ds 0).map Int.ofNat
  | '-' :: ds => if ds = [] then none else (digitsValAux ds 0).map (fun n => -(n : Int))
  | ds => (digitsValAux ds 0).map Int.ofNat

/-! ## Data model -/

/-- Python exceptions that the embedded fragments can raise. -/
inductive PyErr where
  | valueError (msg : String)
  | keyError (key : String)
  | nameError (missing : String)
deriving DecidableEq, Repr

deriving instance DecidableEq for Except

/-- One record of tools_general.json.  Each field is optional: indexing a
missing field raises KeyError in the source, while a missing domain is
defaulted to Other by tool.get. -/
structure ToolRecord where
  name : Option String
  description : Option String
  parameters : Option String
  domain : Option String
deriving DecidableEq, Repr

/-- One value of the toolset dictionary built by populate_registries. -/
structure ToolsetEntry where
  description : String
  parameters : String
  domain : String
deriving DecidableEq, Repr

/-- A value of the sub_controllers_registry dictionary: populate_registries
stores lists of tool records (via defaultdict(list)), while create_new_sc
stores a free-text instruction string. -/
inductive RegEntry where
  | tools (ts : List ToolRecord)
  | instr (s : String)
deriving DecidableEq, Repr

/-- The sub-controllers registry: a Python dict from domain name to entry,
kept as an insertion-ordered association list with unique keys. -/
abbrev Registry := List (String × RegEntry)

/-- Model of Python dict assignment d[k] = v: update the value in place if
the key is present, otherwise append the new pair at the end. -/
def dictInsert {α : Type} : List (String × α) → String → α → List (String × α)
  | [], k, v => [(k, v)]
  | (k2, v2) :: rest, k, v =>
    if k2 = k then (k, v) :: rest else (k2, v2) :: dictInsert rest k v

/-! ## populate_registries (src/src/controllers.py lines 7 to 43) -/

/-- Model of `sub_controllers_registry[domain].append(tool)` on the
defaultdict(list): append to the existing list, or start a new singleton
list for an absent domain.  The instr arm never arises while populating
(the loop only ever stores tool lists) and leaves the registry unchanged. -/
def regAppend (reg : Registry) (k : String) (t : ToolRecord) : Registry :=
  match List.lookup k reg with
  | some (RegEntry.tools ts) => dictInsert reg k (RegEntry.tools (ts ++ [t]))
  | some (RegEntry.instr _) => reg
  | none => reg ++ [(k, RegEntry.tools [t])]

/-- A record that the populating loop can process without raising KeyError:
name, description and parameters are all present. -/
def wellFormedTool (t : ToolRecord) : Bool :=
  t.name.isSome && t.description.isSome && t.parameters.isSome

/-- The loop body of populate_registries.  A KeyError on a malformed record
is caught by the surrounding try/except, which then returns whatever had
been accumulated so far; that is modelled by stopping and returning the
current state. -/
def populateGo : List ToolRecord → List (String × ToolsetEntry) → Registry →
    List (String × ToolsetEntry) × Registry
  | [], ts, reg => (ts, reg)
  | tool :: rest, ts, reg =>
    match tool.name, tool.description, tool.parameters with
    | some nm, some desc, some par =>
      let domain := tool.domain.getD "Other"
      if domain = "Other" then
        populateGo rest (dictInsert ts nm ⟨desc, par, "General"⟩) (regAppend reg "General" tool)
      else
        populateGo rest (dictInsert ts nm ⟨desc, par, domain⟩) (regAppend reg domain tool)
    | _, _, _ => (ts, reg)

/-- The outcome of opening and JSON-decoding the toolset file, the only
external input of populate_registries. -/
inductive LoadResult where
  | failure (msg : String)
  | success (tools : List ToolRecord)

/-- Model of populate_registries: on an unreadable or undecodable source the
try/except catches before the loop ran, so both registries come back empty;
otherwise the records are folded into the two dictionaries. -/
def populate_registries : LoadResult → List (String × ToolsetEntry) × Registry
  | .failure _ => ([], [])
  | .success tools => populateGo tools [] []

/-! ## execute_with_feedback (src/src/controllers.py lines 161 to 187) -/

/-- Oracle and provider behaviour for one execute_with_feedback call: the
provider result, the verifier verdict and the feedback text of each
iteration.  These stand for the LLM calls sc.handle_task, verify_result and
generate_feedback, which are external collaborators. -/
structure ExecEnv where
  handle : Nat → String
  verify : Nat → Bool
  feedback : Nat → String

/-- What execute_with_feedback can produce.  completed and failedToConverge
carry the returned result and name the status written to the task status
board; unknownRole is the early return of the error string for a role that
resolves to no sub-controller; nameError is the NameError that Python
raises at `return result` when max_feedback_loops is zero and no result was
ever assigned. -/
inductive ExecOutcome where
  | completed (result : String)
  | failedToConverge (result : String)
  | unknownRole
  | nameError
deriving DecidableEq, Repr

/-- The first count feedback texts starting at iteration i. -/
def feedbackSeq (env : ExecEnv) : Nat → Nat → List String
  | _, 0 => []
  | i, count + 1 => env.feedback i :: feedbackSeq env (i + 1) count

/-- The feedback loop of execute_with_feedback: run the provider, accept on
a verifier pass, otherwise record feedback and stop early when the feedback
text contains the convergence token. -/
def execLoop (env : ExecEnv) : Nat → Nat → List String → Option String →
    ExecOutcome × List String
  | 0, _, fbs, last =>
    match last with
    | some r => (.failedToConverge r, fbs)
    | none => (.nameError, fbs)
  | fuel + 1, i, fbs, _ =>
    if env.verify i then (.completed (env.handle i), fbs)
    else if containsSubstr "converged" (pyLower (env.feedback i)) then
      (.failedToConverge (env.handle i), fbs ++ [env.feedback i])
    else
      execLoop env fuel (i + 1) (fbs ++ [env.feedback i]) (some (env.handle i))

/-- Model of GeneralController.execute_with_feedback: General always
resolves to the built-in GSC, a registered role resolves to a
sub-controller, anything else returns the unknown-role error string. -/
def execute_with_feedback (registry : Registry) (env : ExecEnv) (maxLoops : Nat)
    (role : String) : ExecOutcome × List String :=
  if role = "General" then execLoop env maxLoops 0 [] none
  else if (List.lookup role registry).isSome then execLoop env maxLoops 0 [] none
  else (.unknownRole, [])

/-- The string value that execute_with_feedback hands back to process_query;
none models the NameError propagating instead of a value. -/
def execText : ExecOutcome → Option String
  | .completed r => some r
  | .failedToConverge r => some r
  | .unknownRole => some "Error: Unknown role."
  | .nameError => none

/-! ## decompose_query (src/src/controllers.py lines 133 to 159) -/

/-- One iteration of the parsing loop of decompose_query:
`role, score, task = line.split(": ", 2)` raises ValueError when the split
does not give exactly three fields, `int(score)` raises ValueError on a
non-numeric score, and a score of at least 8 binds the subtask to the named
role while anything lower rebinds it to General. -/
def processLine (tasks : List (String × String)) (line : String) :
    Except PyErr (List (String × String)) :=
  match pySplit2 line with
  | [role, sStr, task] =>
    match pyInt sStr with
    | some s =>
      if 8 ≤ s then .ok (dictInsert tasks role task)
      else .ok (dictInsert tasks "General" task)
    | none => .error (.valueError "invalid literal for int")
  | _ => .error (.valueError "not enough values to unpack")

/-- The parsing loop of decompose_query over the response lines; the first
ValueError aborts the whole call, as nothing catches it in the source. -/
def decomposeLines : List String → List (String × String) →
    Except PyErr (List (String × String))
  | [], tasks => .ok tasks
  | l :: rest, tasks =>
    match processLine tasks l with
    | .ok t2 => decomposeLines rest t2
    | .error e => .error e

/-- Model of GeneralController.decompose_query applied to the oracle
response text.  The trailing task status board update (every parsed role is
marked Pending) carries no information used by the theorems below and is
not modelled. -/
def decompose_query (response : String) : Except PyErr (List (String × String)) :=
  decomposeLines (pySplitLines response) []

/-- A response line on which the parsing loop of decompose_query raises:
the split does not produce three fields, or the score field is not an
integer. -/
def malformedLine (line : String) : Bool :=
  match pySplit2 line with
  | [_, sStr, _] => (pyInt sStr).isNone
  | _ => true

/-! ## store_persistent_data (src/src/controllers.py lines 222 to 227) -/

/-- The loop body of store_persistent_data for one (role, response) pair:
promote the role from the working copy task_sub_controllers into the
persistent registry when the response text contains the substring success
(case-insensitively) and the role is not already registered.  Reading a
role that is absent from the working copy raises KeyError. -/
def promoteOne (taskSubs : Registry) (p : String × String) (reg : Registry) :
    Except PyErr Registry :=
  if containsSubstr "success" (pyLower p.2) then
    if (List.lookup p.1 reg).isSome then .ok reg
    else
      match List.lookup p.1 taskSubs with
      | some v => .ok (dictInsert reg p.1 v)
      | none => .error (.keyError p.1)
  else .ok reg

/-- Model of GeneralController.store_persistent_data: fold the promotion
step over the per-domain responses. -/
def store_persistent_data (taskSubs : Registry) : Registry → List (String × String) →
    Except PyErr Registry
  | reg, [] => .ok reg
  | reg, p :: rest =>
    match promoteOne taskSubs p reg with
    | .ok reg2 => store_persistent_data taskSubs reg2 rest
    | .error e => .error e

/-! ## process_query routing and plug-ins (src/src/controllers.py lines 70 to 131) -/

/-- The controller state that the routing code reads: the persistent
registry, the plug-in table written by register_plugin (plug-in instances
are opaque and modelled by identifiers), the loop bound fixed at
construction, and the per-query working copy of the registry. -/
structure Controller where
  sub_controllers_registry : Registry
  plugins : List (String × String)
  max_feedback_loops : Nat
  task_sub_controllers : Registry

/-- Model of GeneralController.register_plugin: store the instance in the
plugins dictionary. -/
def register_plugin (c : Controller) (plugin_name plugin_instance : String) : Controller :=
  { c with plugins := dictInsert c.plugins plugin_name plugin_instance }

/-- Model of GeneralController.reassign_task: strip the oracle reply and
accept it only when it names a registered domain. -/
def reassign_task (registry : Registry) (response : String) : Option String :=
  let suggested := String.mk (trimChars response.data)
  if (List.lookup suggested registry).isSome then some suggested else none

/-- The oracle answers consumed by one pass of the routing body: one
ExecEnv per possible execute_with_feedback call, the reply to the
verify_creation question (Python tests its truthiness, so any non-empty
string counts as yes), the result of the dynamically created provider, and
the reply to the reassignment question. -/
structure RouteEnv where
  gscEnv : ExecEnv
  roleEnv : ExecEnv
  verifyCreation : String
  createResult : String
  reassignResponse : String
  reassignedEnv : ExecEnv
  gscEnv2 : ExecEnv

/-- Modelled from the spec: DynamicSubController is referenced at
src/src/controllers.py line 218 and imported by src/src/main.py but defined
nowhere under src/.  Per the Provider Factory contract it is a provider
bound to synthesized instructions whose handle_task returns the oracle
result text, here supplied as RouteEnv.createResult; create_new_sc also
records an instruction string for the role in the working registry copy. -/
def create_new_sc (taskSubs : Registry) (renv : RouteEnv) (role : String) :
    String × Registry :=
  (renv.createResult,
    dictInsert taskSubs role
      (RegEntry.instr ("Handles domain " ++ role ++ " tasks as per given instructions.")))

/-- Model of the per-subtask body of GeneralController.process_query
(lines 76 to 96): a registered role is dispatched directly; otherwise the
task goes to the General provider, and only a General response that is
literally the string Error colon Unknown role (without the trailing period
that execute_with_feedback actually produces) enters the creation,
reassignment and fallback ladder.  Returns the (key, response) pairs added
to responses together with the resulting working registry copy. -/
def route_subtask (c : Controller) (renv : RouteEnv) (role task : String) :
    Except PyErr (List (String × String) × Registry) :=
  if (List.lookup role c.sub_controllers_registry).isSome then
    match execText (execute_with_feedback c.sub_controllers_registry renv.roleEnv
        c.max_feedback_loops role).1 with
    | some r => .ok ([(role, r)], c.task_sub_controllers)
    | none => .error (.nameError "result")
  else
    match execText (execute_with_feedback c.sub_controllers_registry renv.gscEnv
        c.max_feedback_loops "General").1 with
    | none => .error (.nameError "result")
    | some gscResponse =>
      if gscResponse = "Error: Unknown role" then
        if renv.verifyCreation ≠ "" then
          let created := create_new_sc c.task_sub_controllers renv role
          .ok ([(role, created.1)], created.2)
        else
          match reassign_task c.sub_controllers_registry renv.reassignResponse with
          | some newRole =>
            match execText (execute_with_feedback c.sub_controllers_registry
                renv.reassignedEnv c.max_feedback_loops newRole).1 with
            | some r => .ok ([(newRole, r)], c.task_sub_controllers)
            | none => .error (.nameError "result")
          | none =>
            match execText (execute_with_feedback c.sub_controllers_registry
                renv.gscEnv2 c.max_feedback_loops "General").1 with
            | some r => .ok ([("General", r)], c.task_sub_controllers)
            | none => .error (.nameError "result")
      else .ok ([(role, gscResponse)], c.task_sub_controllers)

/-! ## Concrete inputs used by the closed theorems below -/

/-- An oracle environment with empty answers, for the unused slots of a
RouteEnv. -/
def stubEnv : ExecEnv := ⟨fun _ => "", fun _ => false, fun _ => ""⟩

/-- A General provider whose drafts never pass verification and whose
feedback never contains the convergence token. -/
def c1GscEnv : ExecEnv :=
  ⟨fun _ => "unverified draft", fun _ => false, fun _ => "needs work"⟩

/-- Routing answers for the unknown-domain scenario. -/
def c1Route : RouteEnv := ⟨c1GscEnv, stubEnv, "1", "", "", stubEnv, stubEnv⟩

/-- A controller with an empty registry and the default loop bound of 3. -/
def ctrl1 : Controller := ⟨[], [], 3, []⟩

/-- A General provider that fails to converge on a result whose text
happens to contain the word success. -/
def c5Env : ExecEnv :=
  ⟨fun _ => "no success achieved", fun _ => false, fun _ => "try again"⟩

/-- A General provider failing to converge on a success-mentioning text,
used to instantiate the promotion theorem. -/
def c5wEnv : ExecEnv :=
  ⟨fun _ => "success pending", fun _ => false, fun _ => "more"⟩

/-- A General provider that succeeds immediately. -/
def c8GscEnv : ExecEnv := ⟨fun _ => "GENERAL-ANSWER", fun _ => true, fun _ => ""⟩

/-- Routing answers for the plug-in scenario. -/
def c8Route : RouteEnv := ⟨c8GscEnv, stubEnv, "", "", "", stubEnv, stubEnv⟩

/-- A controller with an empty registry and one registered plug-in. -/
def ctrl8 : Controller := register_plugin ⟨[], [], 3, []⟩ "Payments" "externalPaymentsProvider"

/-- A provider that is never verified, with feedback free of the token. -/
def c3Env : ExecEnv := ⟨fun _ => "draft", fun _ => false, fun _ => "needs detail"⟩

/-- A provider whose very first feedback contains the convergence token. -/
def c4Env : ExecEnv := ⟨fun _ => "attempt", fun _ => false, fun _ => "Converged already"⟩

/-- A well-formed tool record. -/
def toolGood : ToolRecord := ⟨some "forecast", some "weather forecasts", some "city", some "Weather"⟩

/-- A malformed tool record without a name field. -/
def toolBad : ToolRecord := ⟨none, some "broken", none, none⟩

/-! ## Lemmas about the refinement loop -/

/-- The feedback list grows by at most one entry per unit of fuel. -/
theorem execLoop_len (env : ExecEnv) :
    ∀ (fuel i : Nat) (fbs : List String) (last : Option String),
      ((execLoop env fuel i fbs last).2).length ≤ fbs.length + fuel := by
  intro fuel
  induction fuel with
  | zero =>
    intro i fbs last
    cases last <;> simp [execLoop]
  | succ f ih =>
    intro i fbs last
    by_cases hv : env.verify i
    · simp [execLoop, hv]
    · by_cases hs : containsSubstr "converged" (pyLower (env.feedback i)) = true
      · simp [execLoop, hv, hs]
      · have hs2 : containsSubstr "converged" (pyLower (env.feedback i)) = false := by
          simpa using hs
        have h2 := ih (i + 1) (fbs ++ [env.feedback i]) (some (env.handle i))
        simp only [execLoop, hv, hs2, if_false, Bool.false_eq_true]
        simp only [List.length_append, List.length_singleton] at h2
        omega

/-- When the verifier never passes and the convergence token never appears,
the loop runs its fuel out, ends in FailedToConverge with the result of the
last iteration, and accumulates one feedback entry per iteration. -/
theorem execLoop_exhaust (env : ExecEnv) :
    ∀ (f i : Nat) (fbs : List String) (last : Option String),
      (∀ m, m < f + 1 → env.verify (i + m) = false) →
      (∀ m, m < f + 1 → containsSubstr "converged" (pyLower (env.feedback (i + m))) = false) →
      execLoop env (f + 1) i fbs last =
        (.failedToConverge (env.handle (i + f)), fbs ++ feedbackSeq env i (f + 1)) := by
  intro f
  induction f with
  | zero =>
    intro i fbs last hv hs
    have hv0 := hv 0 (by omega)
    have hs0 := hs 0 (by omega)
    rw [Nat.add_zero] at hv0 hs0
    simp [execLoop, hv0, hs0, feedbackSeq]
  | succ g ih =>
    intro i fbs last hv hs
    have hv0 := hv 0 (by omega)
    have hs0 := hs 0 (by omega)
    rw [Nat.add_zero] at hv0 hs0
    have step : execLoop env (g + 1 + 1) i fbs last =
        execLoop env (g + 1) (i + 1) (fbs ++ [env.feedback i]) (some (env.handle i)) := by
      simp [execLoop, hv0, hs0]
    rw [step, ih (i + 1) (fbs ++ [env.feedback i]) (some (env.handle i))
      (fun m hm => by
        have := hv (m + 1) (by omega)
        rwa [show i + (m + 1) = i + 1 + m by omega] at this)
      (fun m hm => by
        have := hs (m + 1) (by omega)
        rwa [show i + (m + 1) = i + 1 + m by omega] at this)]
    rw [show i + 1 + g = i + (g + 1) by omega]
    simp [feedbackSeq]

/-- When the verifier fails through iteration k and the feedback of
iteration k is the first to contain the convergence token, the loop stops
at iteration k with FailedToConverge, keeping exactly the first k + 1
feedback entries, regardless of how much fuel remains. -/
theorem execLoop_sentinel (env : ExecEnv) :
    ∀ (k f i : Nat) (fbs : List String) (last : Option String),
      k < f →
      (∀ m, m ≤ k → env.verify (i + m) = false) →
      (∀ m, m < k → containsSubstr "converged" (pyLower (env.feedback (i + m))) = false) →
      containsSubstr "converged" (pyLower (env.feedback (i + k))) = true →
      execLoop env f i fbs last =
        (.failedToConverge (env.handle (i + k)), fbs ++ feedbackSeq env i (k + 1)) := by
  intro k
  induction k with
  | zero =>
    intro f i fbs last hk hv hs hsk
    obtain ⟨g, rfl⟩ : ∃ g, f = g + 1 := ⟨f - 1, by omega⟩
    have hv0 := hv 0 (by omega)
    rw [Nat.add_zero] at hv0
    rw [Nat.add_zero] at hsk
    simp [execLoop, hv0, hsk, feedbackSeq]
  | succ j ih =>
    intro f i fbs last hk hv hs hsk
    obtain ⟨g, rfl⟩ : ∃ g, f = g + 1 := ⟨f - 1, by omega⟩
    have hv0 := hv 0 (by omega)
    have hs0 := hs 0 (by omega)
    rw [Nat.add_zero] at hv0 hs0
    have step : execLoop env (g + 1) i fbs last =
        execLoop env g (i + 1) (fbs ++ [env.feedback i]) (some (env.handle i)) := by
      simp [execLoop, hv0, hs0]
    rw [step, ih g (i + 1) (fbs ++ [env.feedback i]) (some (env.handle i)) (by omega)
      (fun m hm => by
        have := hv (m + 1) (by omega)
        rwa [show i + (m + 1) = i + 1 + m by omega] at this)
      (fun m hm => by
        have := hs (m + 1) (by omega)
        rwa [show i + (m + 1) = i + 1 + m by omega] at this)
      (by rwa [show i + (j + 1) = i + 1 + j by omega] at hsk)]
    rw [show i + 1 + j = i + (j + 1) by omega]
    simp [feedbackSeq]

/-- A role that is General or registered is dispatched into the loop. -/
theorem execute_with_feedback_dispatch (reg : Registry) (env : ExecEnv) (n : Nat)
    (role : String) (hrole : role = "General" ∨ (List.lookup role reg).isSome = true) :
    execute_with_feedback reg env n role = execLoop env n 0 [] none := by
  rcases hrole with h | h
  · simp [execute_with_feedback, h]
  · by_cases hg : role = "General" <;> simp [execute_with_feedback, hg, h]

/-! ## Claim theorems -/

/-- C1: when the domain Translation is absent from the registry and the
General provider fails verification on every iteration, the routing body of
process_query returns the unverified FailedToConverge result of the General
provider under the original domain key and never reaches the
verify_creation, reassignment or synthesis steps: the guard compares the
General response text with the literal Error-colon-Unknown-role string,
which a verification failure does not produce.  The second conjunct records
that the General dispatch indeed failed verification. -/
theorem router_general_failure_skips_creation :
    route_subtask ctrl1 c1Route "Translation" "translate hello to French" =
      .ok ([("Translation", "unverified draft")], []) ∧
    (execute_with_feedback [] c1GscEnv 3 "General").1 =
      ExecOutcome.failedToConverge "unverified draft" := by
  exact ⟨rfl, rfl⟩

/-- C3: for every task dispatched into the refinement loop, the feedback
history never holds more than max_feedback_loops entries; and when the loop
exhausts all max_feedback_loops iterations with the verifier never passing
and no convergence token appearing, the task ends FailedToConverge (the
status written to the task status board) and the last produced result is
returned, together with one feedback entry per iteration. -/
theorem feedback_bound_and_exhaustion (reg : Registry) (env : ExecEnv) (n : Nat)
    (role : String)
    (hrole : role = "General" ∨ (List.lookup role reg).isSome = true) :
    ((execute_with_feedback reg env n role).2).length ≤ n ∧
    (0 < n →
      (∀ m, m < n → env.verify m = false) →
      (∀ m, m < n → containsSubstr "converged" (pyLower (env.feedback m)) = false) →
      execute_with_feedback reg env n role =
        (ExecOutcome.failedToConverge (env.handle (n - 1)), feedbackSeq env 0 n)) := by
  rw [execute_with_feedback_dispatch reg env n role hrole]
  constructor
  · simpa using execLoop_len env n 0 [] none
  · intro hn hv hs
    obtain ⟨f, rfl⟩ : ∃ f, n = f + 1 := ⟨n - 1, by omega⟩
    rw [execLoop_exhaust env f 0 [] none
      (fun m hm => by simpa using hv m hm)
      (fun m hm => by simpa using hs m hm)]
    simp

/-- Witness for C3 at a concrete environment and bound two. -/
theorem feedback_bound_and_exhaustion_witness :
    ((execute_with_feedback [] c3Env 2 "General").2).length ≤ 2 ∧
    execute_with_feedback [] c3Env 2 "General" =
      (ExecOutcome.failedToConverge "draft", ["needs detail", "needs detail"]) := by
  have h := feedback_bound_and_exhaustion [] c3Env 2 "General" (Or.inl rfl)
  refine ⟨h.1, ?_⟩
  have h2 := h.2 (by decide) (fun m hm => rfl)
    (fun m hm => by
      show containsSubstr "converged" (pyLower "needs detail") = false
      decide)
  exact h2.trans (by decide)

/-- C4: if the verifier has not passed up to iteration k and the feedback
text generated at iteration k contains the convergence token, the loop
stops on that very iteration even though k + 1 may be well below
max_feedback_loops: the provider is not called again, the status becomes
FailedToConverge, the result of iteration k is returned, and the feedback
history is exactly the first k + 1 feedback texts. -/
theorem convergence_sentinel_stops_loop (reg : Registry) (env : ExecEnv) (n k : Nat)
    (role : String)
    (hrole : role = "General" ∨ (List.lookup role reg).isSome = true)
    (hk : k < n)
    (hv : ∀ m, m ≤ k → env.verify m = false)
    (hs : ∀ m, m < k → containsSubstr "converged" (pyLower (env.feedback m)) = false)
    (hsk : containsSubstr "converged" (pyLower (env.feedback k)) = true) :
    execute_with_feedback reg env n role =
      (ExecOutcome.failedToConverge (env.handle k), feedbackSeq env 0 (k + 1)) := by
  rw [execute_with_feedback_dispatch reg env n role hrole]
  rw [execLoop_sentinel env k n 0 [] none hk
    (fun m hm => by simpa using hv m hm)
    (fun m hm => by simpa using hs m hm)
    (by simpa using hsk)]
  simp

/-- Witness for C4: the first feedback already contains the token, so the
loop of bound three stops after one iteration. -/
theorem convergence_sentinel_stops_loop_witness :
    execute_with_feedback [] c4Env 3 "General" =
      (ExecOutcome.failedToConverge "attempt", ["Converged already"]) := by
  have h := convergence_sentinel_stops_loop [] c4Env 3 0 "General" (Or.inl rfl)
    (by decide) (fun m hm => rfl) (fun m hm => absurd hm (Nat.not_lt_zero m)) (by decide)
  exact h.trans (by decide)

/-- A record that splits into three fields with an integer score is
processed without raising, binding the subtask to the named role when the
score is at least 8 and to General otherwise. -/
theorem processLine_ok (tasks : List (String × String)) (line role sStr task : String)
    (s : Int) (h1 : pySplit2 line = [role, sStr, task]) (h2 : pyInt sStr = some s) :
    processLine tasks line =
      .ok (dictInsert tasks (if 8 ≤ s then role else "General") task) := by
  unfold processLine
  rw [h1]
  simp only [h2]
  by_cases hle : 8 ≤ s <;> simp [hle]

/-- A malformed record makes processLine raise, whatever the accumulator. -/
theorem processLine_of_malformed (line : String) (h : malformedLine line = true)
    (tasks : List (String × String)) : ∃ e, processLine tasks line = .error e := by
  unfold malformedLine at h
  unfold processLine
  split at h
  · next role sStr task heq =>
    cases hpi : pyInt sStr with
    | none => exact ⟨.valueError "invalid literal for int", by simp [hpi]⟩
    | some s => rw [hpi] at h; simp at h
  · exact ⟨.valueError "not enough values to unpack", rfl⟩

/-- A well-formed record makes processLine succeed, whatever the
accumulator. -/
theorem processLine_of_wellformed (line : String) (h : malformedLine line = false)
    (tasks : List (String × String)) : ∃ t2, processLine tasks line = .ok t2 := by
  unfold malformedLine at h
  split at h
  · next role sStr task heq =>
    cases hpi : pyInt sStr with
    | none => rw [hpi] at h; simp at h
    | some s =>
      refine ⟨_, processLine_ok tasks line role sStr task s heq hpi⟩
  · simp at h

/-- The parsing loop errors as soon as any line of the response is
malformed. -/
theorem decomposeLines_error (lines : List String) :
    ∀ (tasks : List (String × String)),
      (∃ l, l ∈ lines ∧ malformedLine l = true) →
      ∃ e, decomposeLines lines tasks = .error e := by
  induction lines with
  | nil =>
    rintro tasks ⟨l, hl, _⟩
    exact absurd hl (List.not_mem_nil l)
  | cons a rest ih =>
    rintro tasks ⟨l, hl, hmal⟩
    by_cases ha : malformedLine a = true
    · obtain ⟨e, he⟩ := processLine_of_malformed a ha tasks
      exact ⟨e, by simp [decomposeLines, he]⟩
    · have ha2 : malformedLine a = false := by simpa using ha
      obtain ⟨t2, ht2⟩ := processLine_of_wellformed a ha2 tasks
      have hl2 : l ∈ rest := by
        rcases List.mem_cons.mp hl with rfl | h
        · rw [hmal] at ha2; cases ha2
        · exact h
      obtain ⟨e, he⟩ := ih t2 ⟨l, hl2, hmal⟩
      exact ⟨e, by simp [decomposeLines, ht2, he]⟩

/-- C2 counterexample: an oracle decomposition response whose second line is
malformed makes decompose_query raise a ValueError instead of dropping the
bad record; the well-formed first record is lost with it. -/
theorem malformed_line_raises_cex :
    decompose_query "Math: 9: add\nNotEnoughFields" =
      Except.error (PyErr.valueError "not enough values to unpack") := by
  decide

/-- C2 amended: a malformed record is not dropped; whenever any line of the
oracle response is malformed (wrong field count under split, or a
non-integer score), decompose_query raises a ValueError that nothing in
process_query catches, and no task set is returned. -/
theorem malformed_line_aborts_decompose (response l : String)
    (hmem : l ∈ pySplitLines response) (hmal : malformedLine l = true) :
    ∃ e, decompose_query response = Except.error e := by
  unfold decompose_query
  exact decomposeLines_error (pySplitLines response) [] ⟨l, hmem, hmal⟩

/-- Witness for the amended C2 at the single malformed line. -/
theorem malformed_line_aborts_decompose_witness :
    ∃ e, decompose_query "NotEnoughFields" = Except.error e :=
  malformed_line_aborts_decompose "NotEnoughFields" "NotEnoughFields" (by decide) (by decide)

/-- C7: a well-formed record binds its subtask to the named domain exactly
when the score is at least 8, and rebinds it to General otherwise. -/
theorem score_threshold_binding (tasks : List (String × String))
    (line role sStr task : String) (s : Int)
    (h1 : pySplit2 line = [role, sStr, task]) (h2 : pyInt sStr = some s) :
    processLine tasks line =
      .ok (dictInsert tasks (if 8 ≤ s then role else "General") task) :=
  processLine_ok tasks line role sStr task s h1 h2

/-- Witness for C7 at the scores 8 and 10 (bind to the named domain) and 7
and 0 (rebind to General). -/
theorem score_threshold_binding_witness :
    processLine [] "Math: 8: integrate" = .ok [("Math", "integrate")] ∧
    processLine [] "Math: 10: integrate" = .ok [("Math", "integrate")] ∧
    processLine [] "Math: 7: integrate" = .ok [("General", "integrate")] ∧
    processLine [] "Math: 0: integrate" = .ok [("General", "integrate")] := by
  have h8 := score_threshold_binding [] "Math: 8: integrate" "Math" "8" "integrate" 8
    (by decide) (by decide)
  have h10 := score_threshold_binding [] "Math: 10: integrate" "Math" "10" "integrate" 10
    (by decide) (by decide)
  have h7 := score_threshold_binding [] "Math: 7: integrate" "Math" "7" "integrate" 7
    (by decide) (by decide)
  have h0 := score_threshold_binding [] "Math: 0: integrate" "Math" "0" "integrate" 0
    (by decide) (by decide)
  exact ⟨h8.trans (by decide), h10.trans (by decide),
    h7.trans (by decide), h0.trans (by decide)⟩

/-- Writing the same key twice keeps only the second value. -/
theorem dictInsert_dictInsert {α : Type} (d : List (String × α)) (k : String)
    (v1 v2 : α) : dictInsert (dictInsert d k v1) k v2 = dictInsert d k v2 := by
  induction d with
  | nil => simp [dictInsert]
  | cons p rest ih =>
    obtain ⟨k2, u⟩ := p
    by_cases h : k2 = k
    · subst h
      simp [dictInsert]
    · simp [dictInsert, h, ih]

/-- C10: when two well-formed records of the response bind to the same
domain key (in particular any two records scoring below 8, which both
rebind to General), the parsing loop keeps only the subtask text of the
later record: the earlier subtask is overwritten in the dict and never
appears in the returned task set. -/
theorem duplicate_domain_last_record_wins (tasks : List (String × String))
    (l1 l2 r1 σ1 t1 r2 σ2 t2 : String) (s1 s2 : Int)
    (h1 : pySplit2 l1 = [r1, σ1, t1]) (h2 : pyInt σ1 = some s1)
    (h3 : pySplit2 l2 = [r2, σ2, t2]) (h4 : pyInt σ2 = some s2)
    (hkey : (if 8 ≤ s1 then r1 else "General") = (if 8 ≤ s2 then r2 else "General")) :
    decomposeLines [l1, l2] tasks =
      .ok (dictInsert tasks (if 8 ≤ s2 then r2 else "General") t2) := by
  have p1 := processLine_ok tasks l1 r1 σ1 t1 s1 h1 h2
  have p2 := processLine_ok (dictInsert tasks (if 8 ≤ s2 then r2 else "General") t1)
    l2 r2 σ2 t2 s2 h3 h4
  rw [hkey] at p1
  simp only [decomposeLines, p1, p2, dictInsert_dictInsert]

/-- Witness for C10: two records scoring 3 and 2 both rebind to General and
only the second subtask survives. -/
theorem duplicate_domain_last_record_wins_witness :
    decomposeLines ["A: 3: first", "B: 2: second"] [] = .ok [("General", "second")] := by
  have h := duplicate_domain_last_record_wins [] "A: 3: first" "B: 2: second"
    "A" "3" "first" "B" "2" "second" 3 2 (by decide) (by decide) (by decide) (by decide)
    (by decide)
  exact h.trans (by decide)

/-- C5 counterexample: the General provider exhausts its loop without a
verifier pass, so the task ends FailedToConverge, yet because the last
result text contains the word success the domain Translation is promoted
into the persistent registry by store_persistent_data. -/
theorem failed_task_promoted_cex :
    execute_with_feedback [] c5Env 3 "General" =
      (ExecOutcome.failedToConverge "no success achieved",
        ["try again", "try again", "try again"]) ∧
    store_persistent_data [("Translation", RegEntry.instr "dynamic translation provider")]
      [] [("Translation", "no success achieved")] =
      .ok [("Translation", RegEntry.instr "dynamic translation provider")] := by
  exact ⟨rfl, rfl⟩

/-- C5 amended: promotion into the persistent registry is keyed solely on a
case-insensitive success substring of the recorded response text and on the
domain being absent from the persistent registry; the task status plays no
part, so even a domain whose task ended FailedToConverge is promoted when
its last result text happens to contain the word success.  The first
hypothesis records such a failed General dispatch producing the response
text; the promotion goes through regardless. -/
theorem promotion_ignores_task_status (env : ExecEnv) (n : Nat)
    (taskSubs reg : Registry) (role resp : String) (v : RegEntry)
    (hfail : (execute_with_feedback reg env n "General").1 =
      ExecOutcome.failedToConverge resp)
    (hsub : containsSubstr "success" (pyLower resp) = true)
    (habs : List.lookup role reg = none)
    (htask : List.lookup role taskSubs = some v) :
    store_persistent_data taskSubs reg [(role, resp)] = .ok (dictInsert reg role v) := by
  simp [store_persistent_data, promoteOne, hsub, habs, htask]

/-- Witness for the amended C5: a one-iteration General dispatch fails to
converge on a success-mentioning text and the domain X is promoted. -/
theorem promotion_ignores_task_status_witness :
    store_persistent_data [("X", RegEntry.instr "d")] [] [("X", "success pending")] =
      .ok [("X", RegEntry.instr "d")] := by
  have h := promotion_ignores_task_status c5wEnv 1 [("X", RegEntry.instr "d")] []
    "X" "success pending" (RegEntry.instr "d") (by decide) (by decide) rfl rfl
  exact h.trans (by decide)

/-- C6: the promotion step is idempotent: for a domain already present in
the persistent registry the promotion body leaves the registry exactly as
it was, whatever the response text, so no descriptor is overwritten and no
duplicate entry appears. -/
theorem promotion_idempotent_on_present_domain (taskSubs reg : Registry)
    (role resp : String) (v : RegEntry)
    (h : List.lookup role reg = some v) :
    promoteOne taskSubs (role, resp) reg = .ok reg := by
  by_cases hs : containsSubstr "success" (pyLower resp) = true <;>
    simp [promoteOne, h, hs]

/-- Witness for C6 at a registry already containing the domain Weather. -/
theorem promotion_idempotent_on_present_domain_witness :
    promoteOne [] ("Weather", "great success") [("Weather", RegEntry.instr "w")] =
      .ok [("Weather", RegEntry.instr "w")] :=
  promotion_idempotent_on_present_domain [] [("Weather", RegEntry.instr "w")]
    "Weather" "great success" (RegEntry.instr "w") rfl

/-- C8 counterexample: a plug-in registered for the domain Payments is
recorded in the plugins dictionary, the domain is absent from the registry,
and yet routing a Payments subtask dispatches it to the General provider:
the response is the General provider answer, and the plug-in is never
consulted. -/
theorem plugin_ignored_in_routing_cex :
    List.lookup "Payments" ctrl8.plugins = some "externalPaymentsProvider" ∧
    List.lookup "Payments" ctrl8.sub_controllers_registry = none ∧
    route_subtask ctrl8 c8Route "Payments" "charge the card" =
      .ok ([("Payments", "GENERAL-ANSWER")], []) := by
  exact ⟨rfl, rfl, rfl⟩

/-- C8 amended: register_plugin only stores the provider in the plugins
dictionary; process_query never reads that dictionary, so routing is
completely invariant under plug-in registration and a subtask whose domain
names a registered plug-in is handled like any other unregistered domain,
by the General provider. -/
theorem routing_invariant_under_plugins (c : Controller)
    (plugin_name plugin_instance : String) (renv : RouteEnv) (role task : String) :
    route_subtask (register_plugin c plugin_name plugin_instance) renv role task =
      route_subtask c renv role task := by
  cases c
  rfl

/-- The populating loop stops at the first malformed record and returns
whatever it had accumulated from the well-formed records before it. -/
theorem populateGo_stops (pre : List ToolRecord) :
    ∀ (post : List ToolRecord) (bad : ToolRecord) (ts : List (String × ToolsetEntry))
      (reg : Registry),
      (∀ t ∈ pre, wellFormedTool t = true) → wellFormedTool bad = false →
      populateGo (pre ++ bad :: post) ts reg = populateGo pre ts reg := by
  induction pre with
  | nil =>
    intro post bad ts reg _ hbad
    obtain ⟨bn, bd, bp, bdom⟩ := bad
    simp only [wellFormedTool] at hbad
    cases bn <;> cases bd <;> cases bp <;> simp_all [populateGo]
  | cons t rest ih =>
    intro post bad ts reg hpre hbad
    have ht := hpre t (List.mem_cons_self t rest)
    obtain ⟨tn, td, tp, tdom⟩ := t
    simp only [wellFormedTool] at ht
    cases tn with
    | none => simp at ht
    | some nm =>
      cases td with
      | none => simp at ht
      | some desc =>
        cases tp with
        | none => simp at ht
        | some par =>
          have hrest : ∀ u ∈ rest, wellFormedTool u = true :=
            fun u hu => hpre u (List.mem_cons_of_mem _ hu)
          simp only [List.cons_append, populateGo]
          by_cases hdom : (Option.getD tdom "Other") = "Other" <;>
            simp only [hdom, if_true, if_false] <;>
            exact ih post bad _ _ hrest hbad

/-- C9 counterexample: on an unreadable toolset source populate_registries
returns without raising, but the resulting registry is completely empty and
in particular holds no General entry, contradicting that the degraded
registry contains the reserved General domain. -/
theorem load_failure_empty_registry_cex :
    populate_registries (LoadResult.failure "unreadable file") = ([], []) ∧
    List.lookup "General" (populate_registries (LoadResult.failure "unreadable file")).2 =
      none := by
  exact ⟨rfl, rfl⟩

/-- C9 amended: a load failure never raises out of populate_registries but
does not install a General entry either: an unreadable or undecodable
source yields entirely empty registries, and a malformed record aborts the
loop at that record, keeping exactly the entries accumulated from the
well-formed records before it.  The domain General nevertheless still
resolves to a provider afterwards, because execute_with_feedback dispatches
the role General to the built-in General sub-controller before ever
consulting the registry. -/
theorem load_failure_degrades (msg : String) (pre post : List ToolRecord)
    (bad : ToolRecord) (env : ExecEnv) (n : Nat)
    (hpre : ∀ t ∈ pre, wellFormedTool t = true)
    (hbad : wellFormedTool bad = false) :
    populate_registries (LoadResult.failure msg) = ([], []) ∧
    populate_registries (LoadResult.success (pre ++ bad :: post)) =
      populate_registries (LoadResult.success pre) ∧
    execute_with_feedback [] env n "General" = execLoop env n 0 [] none := by
  refine ⟨rfl, ?_, by simp [execute_with_feedback]⟩
  simpa [populate_registries] using populateGo_stops pre post bad [] [] hpre hbad

/-- Witness for the amended C9: one good record before a record without a
name field; the loop keeps exactly the good record. -/
theorem load_failure_degrades_witness :
    populate_registries (LoadResult.failure "x") = ([], []) ∧
    populate_registries (LoadResult.success ([toolGood] ++ toolBad :: [])) =
      populate_registries (LoadResult.success [toolGood]) ∧
    execute_with_feedback [] stubEnv 1 "General" = execLoop stubEnv 1 0 [] none :=
  load_failure_degrades "x" [toolGood] [] toolBad stubEnv 1 (by decide) (by decide)
